import Mathlib

/-!
Verification of the cc-pre-tool-use-hook-judge repository: a shallow embedding
of its PreToolUse judgment pipeline (response-format checking, output
normalization, JSON-schema validation, the bounded retry loop of
`judge_pretooluse_async`, and the CLI error boundary of `__main__.main`),
together with theorems settling the specification claims about it.

Conventions of the embedding:
- Python strings are `List Char`; Python dicts parsed from JSON are
  association lists `List (String × Json)` (JSON parsing produces pairwise
  distinct keys, later duplicates overwriting earlier ones, as in CPython).
- The Claude Agent SDK client is an external collaborator: the sequence of
  response texts it yields is a parameter `responses : Nat → List Char`.
- `json.loads` is the Python standard library; `jsonLoads` below models it on
  the JSON fragment exercised here (no floating-point numbers, no \u escapes);
  loop-level theorems are stated for an arbitrary parse function and only the
  concrete scenario theorems use `jsonLoads`.
-/

/-! ### Characters and Python-style string trimming -/

/-- The backtick character, written via its code point. -/
def backtick : Char := Char.ofNat 96

/-- The opening curly brace character, written via its code point. -/
def lbrace : Char := Char.ofNat 123

/-- The closing curly brace character, written via its code point. -/
def rbrace : Char := Char.ofNat 125

/-- The double-quote character, written via its code point. -/
def quoteChar : Char := Char.ofNat 34

/-- The backslash character, written via its code point. -/
def backslashChar : Char := Char.ofNat 92

/-- Whitespace as removed by Python str.strip and matched by the regex
class \s: space, tab, newline, carriage return, vertical tab, form feed
(the ASCII part; further Unicode whitespace is treated uniformly by both
operations in the source, so the model restricts to this set). -/
def pyIsSpace (c : Char) : Bool :=
  c = ' ' || c = '\t' || c = '\n' || c = '\r' || c = '\x0b' || c = '\x0c'

/-- Python str.strip(): remove leading and trailing whitespace. -/
def pyStrip (cs : List Char) : List Char :=
  ((cs.dropWhile pyIsSpace).reverse.dropWhile pyIsSpace).reverse

/-- Whether the text begins with three backticks. -/
def startsWithFence (cs : List Char) : Bool :=
  match cs with
  | c1 :: c2 :: c3 :: _ => c1 = backtick && c2 = backtick && c3 = backtick
  | _ => false

/-- Models re.search of three backticks: some suffix starts with a fence. -/
def hasCodeFence : List Char → Bool
  | [] => false
  | c :: cs => startsWithFence (c :: cs) || hasCodeFence cs

/-- The three-backtick marker searched for by `_validate_response_format`. -/
def fenceChars : List Char := [backtick, backtick, backtick]

/-- Models str.rfind of the closing brace: the text strictly after the last
closing brace, or none when no closing brace occurs. -/
def afterLastBrace (cs : List Char) : Option (List Char) :=
  if rbrace ∈ cs then some ((cs.reverse.takeWhile (fun c => ¬(c = rbrace))).reverse)
  else none

/-! ### Response format checker (`_validate_response_format` in src/judge.py)

The Python function raises one of three exception classes; the embedding
returns the raised class (with the data the source passes to its
create_message builder) as an `Option`, `none` meaning no exception. -/

/-- The format exceptions `_validate_response_format` can raise, carrying the
payload the source interpolates into the corresponding detailed message:
the first 50 characters of the stripped text for the prefix case, the
stripped trailing text for the suffix case. -/
inductive FormatError where
  | codeFenceInResponseError
  | invalidJSONPrefixError (leading : List Char)
  | invalidJSONSuffixError (trailing : List Char)
deriving DecidableEq

/-- Transcription of `_validate_response_format` (src/judge.py lines 77-110):
strip the text; fail on a code fence anywhere; else fail when the stripped
text is non-empty and does not start (after the regex prefix of whitespace)
with an opening brace, echoing the first 50 characters; else fail when
non-whitespace text follows the last closing brace, echoing that text. -/
def validateResponseFormat (text : List Char) : Option FormatError :=
  let s := pyStrip text
  if hasCodeFence s then some FormatError.codeFenceInResponseError
  else if ¬(s = []) ∧ ¬((s.dropWhile pyIsSpace).head? = some lbrace) then
    some (FormatError.invalidJSONPrefixError (s.take 50))
  else
    match afterLastBrace s with
    | some after =>
        let t := pyStrip after
        if ¬(t = []) then some (FormatError.invalidJSONSuffixError t) else none
    | none => none

/-- The exact text of CodeFenceInResponseError.create_message in
src/exceptions.py (the corrective message for a code-fence reply). -/
def codeFenceMessage : String :=
  "Your response contains markdown code fences (```).\nDo NOT wrap the JSON in markdown code blocks like ```json ... ```.\nReturn ONLY the raw JSON object.\n\nWRONG:\n```json\n\x7b\"permissionDecision\": \"allow\"\x7d\n```\n\nCORRECT:\n\x7b\"permissionDecision\": \"allow\"\x7d"

/-! ### JSON values -/

/-- A parsed JSON value, as produced by json.loads: objects are association
lists in insertion order (CPython dicts). -/
inductive Json where
  | null
  | bool (b : Bool)
  | num (n : Int)
  | str (s : String)
  | arr (elems : List Json)
  | obj (members : List (String × Json))

/-- Dict key lookup (first occurrence; parsed dicts have distinct keys). -/
def lookupKey : List (String × Json) → String → Option Json
  | [], _ => none
  | (k2, v) :: rest, k => if k2 = k then some v else lookupKey rest k

/-! ### Constants (src/constants.py) -/

/-- Hook event name constant. -/
def HOOK_EVENT_NAME : String := "PreToolUse"

/-- Permission decision value allow. -/
def PERMISSION_ALLOW : String := "allow"

/-- Permission decision value deny. -/
def PERMISSION_DENY : String := "deny"

/-- Permission decision value ask. -/
def PERMISSION_ASK : String := "ask"

/-- Default permission decision (deny, for security). -/
def DEFAULT_PERMISSION_DECISION : String := PERMISSION_DENY

/-- Default permission decision reason. -/
def DEFAULT_PERMISSION_REASON : String :=
  "Invalid or missing permission decision from judgment system"

/-- Maximum number of retry attempts for JSON parsing. -/
def MAX_RETRY_ATTEMPTS : Nat := 3

/-! ### Output normalizer (`_wrap_output_if_needed` in src/judge.py) -/

/-- Python membership test of the key hookSpecificOutput in the parsed value
(the source writes it on a dict; on a string it is a substring test, on a
list an element test, and on the remaining value forms it raises TypeError,
modelled as `none`). -/
def pyContainsHookKey : Json → Option Bool
  | Json.obj fields => some (lookupKey fields "hookSpecificOutput").isSome
  | Json.str s => some (decide ("hookSpecificOutput".data <:+: s.data))
  | Json.arr xs =>
      some (xs.any (fun x => match x with
        | Json.str s => s = "hookSpecificOutput"
        | _ => false))
  | _ => none

/-- Transcription of `_wrap_output_if_needed` (src/judge.py lines 113-134):
when the parsed data does not contain the key hookSpecificOutput, synthesize
the envelope from the data via dict.get with the deny defaults; otherwise
return the data unchanged. `none` models an uncaught Python exception
(TypeError from membership on a scalar, AttributeError from .get on a
non-dict). -/
def wrapOutputIfNeeded (j : Json) : Option Json :=
  match pyContainsHookKey j with
  | none => none
  | some true => some j
  | some false =>
      match j with
      | Json.obj fields =>
          some (Json.obj [("hookSpecificOutput", Json.obj
            [("hookEventName", Json.str HOOK_EVENT_NAME),
             ("permissionDecision",
               (lookupKey fields "permissionDecision").getD
                 (Json.str DEFAULT_PERMISSION_DECISION)),
             ("permissionDecisionReason",
               (lookupKey fields "permissionDecisionReason").getD
                 (Json.str DEFAULT_PERMISSION_REASON))])])
      | _ => none

/-! ### Schema validation (src/schema.py)

`_validate_with_schema` calls the external jsonschema library on a fixed
draft-07 schema and returns the document unchanged, converting a validation
error into a ValueError carrying the error message. The two validators below
transcribe the two fixed schema constants `PRETOOLUSE_OUTPUT_SCHEMA` and
`PRETOOLUSE_INPUT_SCHEMA` of src/schema.py under draft-07 semantics: `type`,
`required`, per-property subschemas (`type`, `const`, `enum`) applied to the
present keys, and `additionalProperties`. -/

/-- Draft-07 type object check, yielding the member list. -/
def expectObjAt (ctx : String) (j : Json) : Except String (List (String × Json)) :=
  match j with
  | Json.obj fields => Except.ok fields
  | _ => Except.error (ctx ++ " is not of type object")

/-- Draft-07 required-property check, yielding the value at the key. -/
def requireKey (fields : List (String × Json)) (k : String) : Except String Json :=
  match lookupKey fields k with
  | some v => Except.ok v
  | none => Except.error (k ++ " is a required property")

/-- Draft-07 const check for a string constant. -/
def checkConstStr (v : Json) (k s : String) : Except String Unit :=
  match v with
  | Json.str t => if t = s then Except.ok () else Except.error (k ++ " must equal the constant " ++ s)
  | _ => Except.error (k ++ " is not of type string")

/-- Draft-07 type string check. -/
def checkString (v : Json) (k : String) : Except String Unit :=
  match v with
  | Json.str _ => Except.ok ()
  | _ => Except.error (k ++ " is not of type string")

/-- Draft-07 type object check on a property value. -/
def checkObjVal (v : Json) (k : String) : Except String Unit :=
  match v with
  | Json.obj _ => Except.ok ()
  | _ => Except.error (k ++ " is not of type object")

/-- Draft-07 type boolean check on a property value. -/
def checkBoolVal (v : Json) (k : String) : Except String Unit :=
  match v with
  | Json.bool _ => Except.ok ()
  | _ => Except.error (k ++ " is not of type boolean")

/-- The enum applied to permissionDecision: allow, deny or ask. -/
def checkEnumDecision (v : Json) : Except String Unit :=
  match v with
  | Json.str s =>
      if s = "allow" ∨ s = "deny" ∨ s = "ask" then Except.ok ()
      else Except.error ("permissionDecision is not one of allow, deny, ask: " ++ s)
  | _ => Except.error "permissionDecision is not of type string"

/-- A property subschema applied only when the key is present. -/
def checkOptional (fields : List (String × Json)) (k : String)
    (chk : Json → String → Except String Unit) : Except String Unit :=
  match lookupKey fields k with
  | some v => chk v k
  | none => Except.ok ()

/-- Whether a key belongs to the closed inner envelope property set. -/
def isEnvelopeKey (k : String) : Bool :=
  k = "hookEventName" || k = "permissionDecision" ||
  k = "permissionDecisionReason" || k = "updatedInput"

/-- The additionalProperties false check of the inner envelope. -/
def checkClosedKeys (inner : List (String × Json)) : Except String Unit :=
  match inner.find? (fun p => !isEnvelopeKey p.1) with
  | some p => Except.error ("Additional properties are not allowed: " ++ p.1)
  | none => Except.ok ()

/-- Transcription of validate_pretooluse_output = `_validate_with_schema`
applied to `PRETOOLUSE_OUTPUT_SCHEMA` (src/schema.py lines 11-55, 90-108,
163-166): returns the document unchanged when it conforms, else an error
message naming the offending field or constraint. -/
def validate_pretooluse_output (j : Json) : Except String Json := do
  let fields ← expectObjAt "document" j
  let h ← requireKey fields "hookSpecificOutput"
  let inner ← expectObjAt "hookSpecificOutput" h
  let ev ← requireKey inner "hookEventName"
  checkConstStr ev "hookEventName" "PreToolUse"
  let pd ← requireKey inner "permissionDecision"
  checkEnumDecision pd
  let pr ← requireKey inner "permissionDecisionReason"
  checkString pr "permissionDecisionReason"
  checkOptional inner "updatedInput" checkObjVal
  checkClosedKeys inner
  checkOptional fields "continue" checkBoolVal
  checkOptional fields "stopReason" checkString
  checkOptional fields "suppressOutput" checkBoolVal
  checkOptional fields "systemMessage" checkString
  pure j

/-- The enum applied to permission_mode in the input schema. -/
def checkPermissionMode (v : Json) : Except String Unit :=
  match v with
  | Json.str s =>
      if s = "default" ∨ s = "plan" ∨ s = "acceptEdits" ∨ s = "bypassPermissions" then Except.ok ()
      else Except.error ("permission_mode is not one of the permitted modes: " ++ s)
  | _ => Except.error "permission_mode is not of type string"

/-- Transcription of validate_pretooluse_input = `_validate_with_schema`
applied to `PRETOOLUSE_INPUT_SCHEMA` (src/schema.py lines 59-87, 90-108,
163-166): seven required keys with their types, additional top-level
properties allowed. -/
def validate_pretooluse_input (j : Json) : Except String Json := do
  let fields ← expectObjAt "document" j
  let v1 ← requireKey fields "session_id"
  checkString v1 "session_id"
  let v2 ← requireKey fields "transcript_path"
  checkString v2 "transcript_path"
  let v3 ← requireKey fields "cwd"
  checkString v3 "cwd"
  let pm ← requireKey fields "permission_mode"
  checkPermissionMode pm
  let he ← requireKey fields "hook_event_name"
  checkConstStr he "hook_event_name" "PreToolUse"
  let tn ← requireKey fields "tool_name"
  checkString tn "tool_name"
  let ti ← requireKey fields "tool_input"
  checkObjVal ti "tool_input"
  pure j

/-! ### Declarative conformance predicates

Written from the schema constants of src/schema.py read as draft-07
documents, independently of the executable validators, to state that the
validators accept exactly the conforming documents. -/

/-- Conformance to PRETOOLUSE_OUTPUT_SCHEMA, stated declaratively. -/
def OutputDocConforms (j : Json) : Prop :=
  ∃ fields, j = Json.obj fields ∧
    (∃ inner, lookupKey fields "hookSpecificOutput" = some (Json.obj inner) ∧
      lookupKey inner "hookEventName" = some (Json.str "PreToolUse") ∧
      (lookupKey inner "permissionDecision" = some (Json.str "allow") ∨
       lookupKey inner "permissionDecision" = some (Json.str "deny") ∨
       lookupKey inner "permissionDecision" = some (Json.str "ask")) ∧
      (∃ s, lookupKey inner "permissionDecisionReason" = some (Json.str s)) ∧
      (∀ v, lookupKey inner "updatedInput" = some v → ∃ g, v = Json.obj g) ∧
      (∀ p ∈ inner, p.1 = "hookEventName" ∨ p.1 = "permissionDecision" ∨
        p.1 = "permissionDecisionReason" ∨ p.1 = "updatedInput")) ∧
    (∀ v, lookupKey fields "continue" = some v → ∃ b, v = Json.bool b) ∧
    (∀ v, lookupKey fields "stopReason" = some v → ∃ s, v = Json.str s) ∧
    (∀ v, lookupKey fields "suppressOutput" = some v → ∃ b, v = Json.bool b) ∧
    (∀ v, lookupKey fields "systemMessage" = some v → ∃ s, v = Json.str s)

/-- Conformance to PRETOOLUSE_INPUT_SCHEMA, stated declaratively. -/
def InputDocConforms (j : Json) : Prop :=
  ∃ fields, j = Json.obj fields ∧
    (∃ s, lookupKey fields "session_id" = some (Json.str s)) ∧
    (∃ s, lookupKey fields "transcript_path" = some (Json.str s)) ∧
    (∃ s, lookupKey fields "cwd" = some (Json.str s)) ∧
    (lookupKey fields "permission_mode" = some (Json.str "default") ∨
     lookupKey fields "permission_mode" = some (Json.str "plan") ∨
     lookupKey fields "permission_mode" = some (Json.str "acceptEdits") ∨
     lookupKey fields "permission_mode" = some (Json.str "bypassPermissions")) ∧
    lookupKey fields "hook_event_name" = some (Json.str "PreToolUse") ∧
    (∃ s, lookupKey fields "tool_name" = some (Json.str s)) ∧
    (∃ g, lookupKey fields "tool_input" = some (Json.obj g))

/-! ### A model of json.loads

The Python standard-library parser, modelled on the JSON fragment exercised
by this repository: objects, arrays, strings with the single-character
escapes, integers, true/false/null. Floating-point forms and \u escapes are
rejected by the model (no claim depends on them). Duplicate object keys
overwrite earlier ones in place, as CPython dicts do. -/

/-- JSON whitespace (RFC 8259): space, tab, newline, carriage return. -/
def jsonWs (c : Char) : Bool := c = ' ' || c = '\t' || c = '\n' || c = '\r'

/-- Drop leading JSON whitespace. -/
def skipJsonWs (cs : List Char) : List Char := cs.dropWhile jsonWs

/-- Decode the single-character string escapes of JSON. -/
def escChar (c : Char) : Option Char :=
  if c = quoteChar then some quoteChar
  else if c = backslashChar then some backslashChar
  else if c = '/' then some '/'
  else if c = 'n' then some '\n'
  else if c = 't' then some '\t'
  else if c = 'r' then some '\r'
  else if c = 'b' then some (Char.ofNat 8)
  else if c = 'f' then some (Char.ofNat 12)
  else none

/-- Parse the body of a JSON string after the opening quote, returning the
decoded characters and the remaining input after the closing quote. -/
def parseStringBody : List Char → Except String (List Char × List Char)
  | [] => Except.error "Unterminated string"
  | c :: rest =>
    if c = quoteChar then Except.ok ([], rest)
    else if c = backslashChar then
      match rest with
      | [] => Except.error "Unterminated string"
      | e :: rest2 =>
        match escChar e with
        | some ec => do
            let (s, r) ← parseStringBody rest2
            Except.ok (ec :: s, r)
        | none => Except.error "Unsupported escape"
    else if c.toNat < 32 then Except.error "Invalid control character"
    else do
      let (s, r) ← parseStringBody rest
      Except.ok (c :: s, r)

/-- Numeric digits to a natural number value. -/
def digitsToNat (ds : List Char) : Nat :=
  ds.foldl (fun acc c => acc * 10 + (c.toNat - 48)) 0

/-- Insert a parsed member into a parsed object: a repeated key overwrites
the earlier value in place, matching CPython dict update order. -/
def insertMember (fields : List (String × Json)) (k : String) (v : Json) :
    List (String × Json) :=
  if (lookupKey fields k).isSome then
    fields.map (fun p => if p.1 = k then (k, v) else p)
  else fields ++ [(k, v)]

/-- The position of the recursive-descent parser: at a value, just after an
opening brace, at an object member, just after an opening bracket, or at an
array element (with the members or elements parsed so far). -/
inductive ParseMode where
  | value
  | objBody
  | members (acc : List (String × Json))
  | arrBody
  | elements (acc : List Json)

/-- One recursive-descent parser for the modelled JSON fragment, structural
on a fuel counter so that it evaluates definitionally. -/
def parseStep : Nat → ParseMode → List Char → Except String (Json × List Char)
  | 0, _, _ => Except.error "Nesting too deep"
  | fuel + 1, ParseMode.value, cs =>
    match skipJsonWs cs with
    | [] => Except.error "Expecting value"
    | c :: rest =>
      if c = lbrace then parseStep fuel ParseMode.objBody rest
      else if c = '[' then parseStep fuel ParseMode.arrBody rest
      else if c = quoteChar then do
        let (s, r) ← parseStringBody rest
        Except.ok (Json.str (String.mk s), r)
      else if c = 't' then
        match rest with
        | 'r' :: 'u' :: 'e' :: r2 => Except.ok (Json.bool true, r2)
        | _ => Except.error "Expecting value"
      else if c = 'f' then
        match rest with
        | 'a' :: 'l' :: 's' :: 'e' :: r2 => Except.ok (Json.bool false, r2)
        | _ => Except.error "Expecting value"
      else if c = 'n' then
        match rest with
        | 'u' :: 'l' :: 'l' :: r2 => Except.ok (Json.null, r2)
        | _ => Except.error "Expecting value"
      else if c = '-' then
        match rest.takeWhile Char.isDigit, rest.dropWhile Char.isDigit with
        | [], _ => Except.error "Expecting value"
        | ds, r2 =>
          match r2 with
          | d :: _ =>
            if d = '.' || d = 'e' || d = 'E' then
              Except.error "Number form outside the modelled fragment"
            else Except.ok (Json.num (-(digitsToNat ds : Int)), r2)
          | [] => Except.ok (Json.num (-(digitsToNat ds : Int)), r2)
      else if c.isDigit then
        match (c :: rest).takeWhile Char.isDigit, (c :: rest).dropWhile Char.isDigit with
        | ds, r2 =>
          match r2 with
          | d :: _ =>
            if d = '.' || d = 'e' || d = 'E' then
              Except.error "Number form outside the modelled fragment"
            else Except.ok (Json.num (digitsToNat ds : Int), r2)
          | [] => Except.ok (Json.num (digitsToNat ds : Int), r2)
      else Except.error "Expecting value"
  | fuel + 1, ParseMode.objBody, cs =>
    match skipJsonWs cs with
    | [] => Except.error "Expecting property name"
    | c :: rest =>
      if c = rbrace then Except.ok (Json.obj [], rest)
      else parseStep fuel (ParseMode.members []) (c :: rest)
  | fuel + 1, ParseMode.members acc, cs =>
    match skipJsonWs cs with
    | [] => Except.error "Expecting property name"
    | c :: rest =>
      if c = quoteChar then do
        let (k, r1) ← parseStringBody rest
        match skipJsonWs r1 with
        | ':' :: r2 => do
          let (v, r3) ← parseStep fuel ParseMode.value r2
          let acc2 := insertMember acc (String.mk k) v
          match skipJsonWs r3 with
          | ',' :: r4 => parseStep fuel (ParseMode.members acc2) r4
          | c2 :: r4 =>
            if c2 = rbrace then Except.ok (Json.obj acc2, r4)
            else Except.error "Expecting comma delimiter"
          | [] => Except.error "Expecting comma delimiter"
        | _ => Except.error "Expecting colon delimiter"
      else Except.error "Expecting property name"
  | fuel + 1, ParseMode.arrBody, cs =>
    match skipJsonWs cs with
    | [] => Except.error "Expecting value"
    | ']' :: rest => Except.ok (Json.arr [], rest)
    | c :: rest => parseStep fuel (ParseMode.elements []) (c :: rest)
  | fuel + 1, ParseMode.elements acc, cs => do
    let (v, r1) ← parseStep fuel ParseMode.value cs
    match skipJsonWs r1 with
    | ',' :: r2 => parseStep fuel (ParseMode.elements (acc ++ [v])) r2
    | ']' :: r2 => Except.ok (Json.arr (acc ++ [v]), r2)
    | _ => Except.error "Expecting comma delimiter"

/-- The model of json.loads: parse one value and require only whitespace
after it. -/
def jsonLoads (cs : List Char) : Except String Json := do
  let (v, rest) ← parseStep (4 * cs.length + 16) ParseMode.value cs
  if skipJsonWs rest = [] then Except.ok v else Except.error "Extra data"

/-! ### The retry loop of `judge_pretooluse_async` (src/judge.py lines 204-255)

The loop runs for attempt in range(MAX_RETRY_ATTEMPTS): receive the
response text; on empty text either send the fixed retry prompt or raise
NoResponseError; otherwise json.loads the text, normalize, validate; a
JSONDecodeError or a schema ValueError either sends the corresponding
corrective message or raises the terminal typed error. The SDK client is
external, so the per-attempt response texts are a parameter, as is the parse
function (instantiated with `jsonLoads` in concrete scenarios). -/

/-- The corrective message sent after an empty response (src/judge.py
lines 215-217). -/
def retryPromptNoResponse : String := "Please provide a response in valid JSON format."

/-- The corrective message sent after a JSON parse failure, around the
parser error text (src/judge.py lines 234-237). -/
def retryPromptInvalidJson (e : String) : String :=
  "Your previous response was not valid JSON. Error: " ++ e ++
  ". Please return ONLY raw JSON without any markdown formatting or code blocks."

/-- The corrective message sent after a schema validation failure, around
the validation error text (src/judge.py lines 245-248). -/
def retryPromptSchema (e : String) : String :=
  "Your previous response did not match the required schema. Error: " ++ e ++
  ". Please return a valid response matching the output schema."

/-- The message of the terminal NoResponseError (src/judge.py lines 219-221). -/
def noResponseErrorMessage : String :=
  "No response received from Claude Agent SDK after " ++
  toString MAX_RETRY_ATTEMPTS ++ " attempts"

/-- The message of the terminal InvalidJSONError (src/judge.py lines 239-241). -/
def invalidJSONErrorMessage (e : String) : String :=
  "Failed to parse valid JSON after " ++ toString MAX_RETRY_ATTEMPTS ++
  " attempts: " ++ e

/-- The message of the terminal SchemaValidationError (src/judge.py
lines 250-252). -/
def schemaValidationErrorMessage (e : String) : String :=
  "Failed to get valid output after " ++ toString MAX_RETRY_ATTEMPTS ++
  " attempts: " ++ e

/-- How one judgment call can fail: the three typed terminal errors raised
by the loop, an uncaught Python exception escaping the normalizer on a
non-object parse result, and the AssertionError after the loop (statically
unreachable in the source and in the model, kept for fidelity). -/
inductive JudgeFailure where
  | noResponseError (msg : String)
  | invalidJSONError (msg : String)
  | schemaValidationError (msg : String)
  | uncaughtNormalizeError
  | unreachableAssertionError

/-- What one loop iteration does: return the wrapped output, raise a
terminal failure, or send a corrective message and continue. -/
inductive AttemptOutcome where
  | success (out : Json)
  | fail (f : JudgeFailure)
  | retry (corrective : String)

/-- One iteration of the retry loop at the given attempt index (0-based),
transcribed from src/judge.py lines 208-252: the empty-response check, then
json.loads, the normalizer, and output schema validation, each failure
either retrying (when attempt < MAX_RETRY_ATTEMPTS - 1) with its specific
corrective message or raising its terminal typed error. -/
def judgeAttempt (parse : List Char → Except String Json)
    (r : List Char) (attempt : Nat) : AttemptOutcome :=
  if r = [] then
    if attempt < MAX_RETRY_ATTEMPTS - 1 then AttemptOutcome.retry retryPromptNoResponse
    else AttemptOutcome.fail (JudgeFailure.noResponseError noResponseErrorMessage)
  else
    match parse r with
    | Except.error e =>
        if attempt < MAX_RETRY_ATTEMPTS - 1 then
          AttemptOutcome.retry (retryPromptInvalidJson e)
        else AttemptOutcome.fail (JudgeFailure.invalidJSONError (invalidJSONErrorMessage e))
    | Except.ok j =>
        match wrapOutputIfNeeded j with
        | none => AttemptOutcome.fail JudgeFailure.uncaughtNormalizeError
        | some w =>
            match validate_pretooluse_output w with
            | Except.ok _ => AttemptOutcome.success w
            | Except.error e =>
                if attempt < MAX_RETRY_ATTEMPTS - 1 then
                  AttemptOutcome.retry (retryPromptSchema e)
                else AttemptOutcome.fail
                  (JudgeFailure.schemaValidationError (schemaValidationErrorMessage e))

/-- The result of a judgment call together with the corrective messages it
sent back into the conversation, in order. -/
structure JudgeOutcome where
  result : Except JudgeFailure Json
  sent : List String

/-- The retry loop: run the attempt at the current index, and on a retry
send the corrective message and continue with the next attempt. The fuel
starts at MAX_RETRY_ATTEMPTS and reaching zero is the AssertionError after
the loop (retry outcomes occur only when attempts remain, so it is
unreachable from `judgePretoolUse`). -/
def judgeLoopAux (parse : List Char → Except String Json)
    (responses : Nat → List Char) : Nat → Nat → JudgeOutcome
  | _, 0 => ⟨Except.error JudgeFailure.unreachableAssertionError, []⟩
  | attempt, fuel + 1 =>
    match judgeAttempt parse (responses attempt) attempt with
    | AttemptOutcome.success out => ⟨Except.ok out, []⟩
    | AttemptOutcome.fail f => ⟨Except.error f, []⟩
    | AttemptOutcome.retry msg =>
        ⟨(judgeLoopAux parse responses (attempt + 1) fuel).result,
          msg :: (judgeLoopAux parse responses (attempt + 1) fuel).sent⟩

/-- The judgment retry loop of `judge_pretooluse_async`, abstracted over the
SDK response sequence and the JSON parse function. -/
def judgePretoolUse (parse : List Char → Except String Json)
    (responses : Nat → List Char) : JudgeOutcome :=
  judgeLoopAux parse responses 0 MAX_RETRY_ATTEMPTS

/-! ### The exception class hierarchy (src/exceptions.py and src/config.py) -/

/-- The exception classes declared by the repository, plus the Python
built-in Exception they ultimately extend. `exceptionsConfigError` is the
ConfigError class of src/exceptions.py; `configConfigError` is the distinct
ConfigError class of src/config.py. -/
inductive ExcClass where
  | pyException
  | judgeError
  | invalidJSONErrorClass
  | invalidResponseFormatErrorClass
  | codeFenceInResponseErrorClass
  | invalidJSONPrefixErrorClass
  | invalidJSONSuffixErrorClass
  | noResponseErrorClass
  | schemaValidationErrorClass
  | exceptionsConfigError
  | configConfigError
deriving DecidableEq

/-- The declared base class of each class, transcribed from the class
statements of src/exceptions.py (lines 4-117) and src/config.py
(lines 12-15). -/
def superclass : ExcClass → Option ExcClass
  | ExcClass.pyException => none
  | ExcClass.judgeError => some ExcClass.pyException
  | ExcClass.invalidJSONErrorClass => some ExcClass.judgeError
  | ExcClass.invalidResponseFormatErrorClass => some ExcClass.judgeError
  | ExcClass.codeFenceInResponseErrorClass => some ExcClass.invalidResponseFormatErrorClass
  | ExcClass.invalidJSONPrefixErrorClass => some ExcClass.invalidResponseFormatErrorClass
  | ExcClass.invalidJSONSuffixErrorClass => some ExcClass.invalidResponseFormatErrorClass
  | ExcClass.noResponseErrorClass => some ExcClass.judgeError
  | ExcClass.schemaValidationErrorClass => some ExcClass.judgeError
  | ExcClass.exceptionsConfigError => some ExcClass.judgeError
  | ExcClass.configConfigError => some ExcClass.pyException

/-- Bounded walk up the superclass chain. -/
def derivesFromAux : Nat → ExcClass → ExcClass → Bool
  | 0, _, _ => false
  | fuel + 1, c, d =>
    c = d ||
      match superclass c with
      | some p => derivesFromAux fuel p d
      | none => false

/-- Python issubclass on the modelled hierarchy (reflexive, transitive
along declared bases; the chains have depth at most four). -/
def derivesFrom (c d : ExcClass) : Bool := derivesFromAux 8 c d

/-- The ConfigError class imported and caught by src/__main__.py (line 9
imports it from src.config) and raised by both configuration loaders
(src/config.py lines 44, 51, 54, 56, 77, 85, 92, 95, 97). -/
def mainConfigErrorClass : ExcClass := ExcClass.configConfigError

/-! ### The CLI boundary (src/__main__.py)

`main` wraps the whole run in one try block whose except clauses map each
failure to a deny decision printed as normal output. The except cascade is
total over Python Exception: the three typed judgment errors, the
ConfigError of src/config.py, ValueError (input validation and stdin JSON
parsing), and a final catch-all. `CaughtException` enumerates exactly the
classification performed by those clauses. -/

/-- An exception reaching the try/except of main, classified by the except
clause that catches it (src/__main__.py lines 83-111): the three typed
judgment errors, ConfigError, ValueError, and the residual catch-all. The
payload is the str of the exception. -/
inductive CaughtException where
  | invalidJSONError (msg : String)
  | noResponseError (msg : String)
  | schemaValidationError (msg : String)
  | configError (msg : String)
  | valueError (msg : String)
  | unexpected (msg : String)

/-- The index of the except clause that catches the exception. -/
def exceptionKind : CaughtException → Nat
  | CaughtException.invalidJSONError _ => 0
  | CaughtException.noResponseError _ => 1
  | CaughtException.schemaValidationError _ => 2
  | CaughtException.configError _ => 3
  | CaughtException.valueError _ => 4
  | CaughtException.unexpected _ => 5

/-- The localized reason string each except clause of main produces
(src/__main__.py lines 83-111), transcribed verbatim. -/
def exceptionReason : CaughtException → String
  | CaughtException.invalidJSONError _ =>
      "判定システムが正しいJSON形式で応答できませんでした。安全のため操作を拒否します。"
  | CaughtException.noResponseError _ =>
      "判定システムから応答がありませんでした。安全のため操作を拒否します。"
  | CaughtException.schemaValidationError _ =>
      "判定システムが正しいスキーマ形式で応答できませんでした。安全のため操作を拒否します。"
  | CaughtException.configError m => "設定ファイル読み込みエラー: " ++ m
  | CaughtException.valueError m => "入力検証エラー: " ++ m
  | CaughtException.unexpected m => "予期しないエラーが発生しました: " ++ m

/-- Transcription of create_error_output (src/__main__.py lines 16-31):
the deny decision document carrying the reason. -/
def create_error_output (reason : String) : Json :=
  Json.obj [("hookSpecificOutput", Json.obj
    [("hookEventName", Json.str HOOK_EVENT_NAME),
     ("permissionDecision", Json.str PERMISSION_DENY),
     ("permissionDecisionReason", Json.str reason)])]

/-- The document main prints when the run raises the given exception. -/
def mainErrorOutput (e : CaughtException) : Json :=
  create_error_output (exceptionReason e)

/-- The first character of a reason string, used to separate the reason
families of the except clauses. -/
def headCharOf (s : String) : Option Char := s.data.head?

/-- The first character of the reason each except clause produces. -/
def reasonHeadChar : CaughtException → Char
  | CaughtException.invalidJSONError _ => '判'
  | CaughtException.noResponseError _ => '判'
  | CaughtException.schemaValidationError _ => '判'
  | CaughtException.configError _ => '設'
  | CaughtException.valueError _ => '入'
  | CaughtException.unexpected _ => '予'

/-! ### Concrete scenario data -/

/-- The code-fence-wrapped reply of end-to-end scenario C, attempt 1. -/
def scenarioFencedReply : List Char :=
  "```json\n\x7b\"permissionDecision\": \"allow\", \"permissionDecisionReason\": \"safe\"\x7d\n```".data

/-- The valid raw JSON reply of end-to-end scenario C, attempt 2. -/
def scenarioRawReply : List Char :=
  "\x7b\"permissionDecision\": \"allow\", \"permissionDecisionReason\": \"safe\"\x7d".data

/-- The response sequence of end-to-end scenario C: a fenced reply on the
first attempt, valid raw JSON on the second. -/
def scenarioCResponses : Nat → List Char :=
  fun i => if i = 0 then scenarioFencedReply else if i = 1 then scenarioRawReply else []

/-- A syntactically valid reply that already carries the envelope but lacks
permissionDecisionReason inside it (scenario D shape). -/
def scenarioEnvelopeNoReason : List Char :=
  "\x7b\"hookSpecificOutput\": \x7b\"hookEventName\": \"PreToolUse\", \"permissionDecision\": \"allow\"\x7d\x7d".data

/-- A syntactically valid bare reply lacking permissionDecisionReason. -/
def scenarioBareNoReason : List Char :=
  "\x7b\"permissionDecision\": \"allow\"\x7d".data

/-! ### Generic lemmas about Except and do-chains -/

/-- A bound Except computation returns ok exactly when both stages do. -/
theorem bind_ok_iff {α β : Type} (x : Except String α) (f : α → Except String β) (b : β) :
    (x >>= f = Except.ok b) ↔ ∃ a, x = Except.ok a ∧ f a = Except.ok b := by
  cases x <;> simp [Bind.bind, Except.bind]

/-- A bound Except computation fails exactly when one of the stages does. -/
theorem bind_err_iff {α β : Type} (x : Except String α) (f : α → Except String β) (m : String) :
    (x >>= f = Except.error m) ↔
      x = Except.error m ∨ ∃ a, x = Except.ok a ∧ f a = Except.error m := by
  cases x <;> simp [Bind.bind, Except.bind]

/-- Reduction of a bind whose first stage is ok. -/
theorem ok_bind {α β : Type} (a : α) (f : α → Except String β) :
    ((Except.ok a : Except String α) >>= f) = f a := rfl

/-- Pure on Except is ok. -/
theorem pure_ok_iff {α : Type} (a b : α) :
    ((pure a : Except String α) = Except.ok b) ↔ a = b := by
  simp [pure, Except.pure]

/-- Existentials over Unit collapse to the single inhabitant. -/
theorem exists_unit_iff {P : Unit → Prop} : (∃ u, P u) ↔ P () :=
  ⟨fun ⟨u, h⟩ => by cases u; exact h, fun h => ⟨(), h⟩⟩

/-! ### Lemmas about the checks of the schema validators -/

/-- The type-object check succeeds exactly on objects, unchanged. -/
theorem expectObjAt_ok_iff (ctx : String) (j : Json) (fs : List (String × Json)) :
    expectObjAt ctx j = Except.ok fs ↔ j = Json.obj fs := by
  cases j <;> simp [expectObjAt]

/-- The required-property check succeeds exactly when the lookup does. -/
theorem requireKey_ok_iff (fields : List (String × Json)) (k : String) (v : Json) :
    requireKey fields k = Except.ok v ↔ lookupKey fields k = some v := by
  unfold requireKey
  cases lookupKey fields k <;> simp

/-- The string-const check succeeds exactly on that string. -/
theorem checkConstStr_ok_iff (v : Json) (k s : String) :
    checkConstStr v k s = Except.ok () ↔ v = Json.str s := by
  cases v <;> simp [checkConstStr]

/-- The type-string check succeeds exactly on strings. -/
theorem checkString_ok_iff (v : Json) (k : String) :
    checkString v k = Except.ok () ↔ ∃ s, v = Json.str s := by
  cases v <;> simp [checkString]

/-- The type-object property check succeeds exactly on objects. -/
theorem checkObjVal_ok_iff (v : Json) (k : String) :
    checkObjVal v k = Except.ok () ↔ ∃ g, v = Json.obj g := by
  cases v <;> simp [checkObjVal]

/-- The decision enum check succeeds exactly on the three strings. -/
theorem checkEnumDecision_ok_iff (v : Json) :
    checkEnumDecision v = Except.ok () ↔
      v = Json.str "allow" ∨ v = Json.str "deny" ∨ v = Json.str "ask" := by
  cases v <;> simp [checkEnumDecision]
  tauto

/-- The permission-mode enum check succeeds exactly on the four strings. -/
theorem checkPermissionMode_ok_iff (v : Json) :
    checkPermissionMode v = Except.ok () ↔
      v = Json.str "default" ∨ v = Json.str "plan" ∨
      v = Json.str "acceptEdits" ∨ v = Json.str "bypassPermissions" := by
  cases v <;> simp [checkPermissionMode]
  tauto

/-- An optional property check succeeds exactly when the key is absent or
its value passes the subcheck. -/
theorem checkOptional_ok_iff (fields : List (String × Json)) (k : String)
    (chk : Json → String → Except String Unit) :
    checkOptional fields k chk = Except.ok () ↔
      ∀ v, lookupKey fields k = some v → chk v k = Except.ok () := by
  unfold checkOptional
  cases lookupKey fields k <;> simp

/-- The closed-key check succeeds exactly when every member key is one of
the four envelope properties. -/
theorem checkClosedKeys_ok_iff (inner : List (String × Json)) :
    checkClosedKeys inner = Except.ok () ↔
      ∀ p ∈ inner, p.1 = "hookEventName" ∨ p.1 = "permissionDecision" ∨
        p.1 = "permissionDecisionReason" ∨ p.1 = "updatedInput" := by
  constructor
  · intro h p hp
    unfold checkClosedKeys at h
    rcases hf : inner.find? (fun q => !isEnvelopeKey q.1) with _ | q
    · rw [List.find?_eq_none] at hf
      have := hf p hp
      simp [isEnvelopeKey] at this
      tauto
    · rw [hf] at h
      exact absurd h (by simp)
  · intro hall
    have hnone : inner.find? (fun q => !isEnvelopeKey q.1) = none := by
      rw [List.find?_eq_none]
      intro x hx
      have := hall x hx
      simp [isEnvelopeKey]
      tauto
    unfold checkClosedKeys
    rw [hnone]

/-- The type-boolean property check succeeds exactly on booleans. -/
theorem checkBoolVal_ok_iff (v : Json) (k : String) :
    checkBoolVal v k = Except.ok () ↔ ∃ b, v = Json.bool b := by
  cases v <;> simp [checkBoolVal]

/-! ### String lemmas for error messages -/

/-- Appending strings concatenates their character data. -/
theorem str_data_append (a b : String) : (a ++ b).data = a.data ++ b.data := by
  cases a
  cases b
  rfl

/-- A string with no characters is the empty string. -/
theorem str_eq_empty_of_data (s : String) (h : s.data = []) : s = "" := by
  cases s
  cases h
  rfl

/-- An append with a non-empty right part is non-empty. -/
theorem str_append_ne_empty_right (a b : String) (hb : b ≠ "") : a ++ b ≠ "" := by
  intro h
  apply hb
  have h2 := congrArg String.data h
  rw [str_data_append] at h2
  have h3 := List.append_eq_nil.mp h2
  exact str_eq_empty_of_data b h3.2

/-- An append with a non-empty left part is non-empty. -/
theorem str_append_ne_empty_left (a b : String) (ha : a ≠ "") : a ++ b ≠ "" := by
  intro h
  apply ha
  have h2 := congrArg String.data h
  rw [str_data_append] at h2
  have h3 := List.append_eq_nil.mp h2
  exact str_eq_empty_of_data a h3.1

/-! ### The validator error messages are never empty -/

/-- An expectObjAt failure carries a non-empty message. -/
theorem expectObjAt_err_ne (ctx : String) (j : Json) (m : String)
    (h : expectObjAt ctx j = Except.error m) : m ≠ "" := by
  cases j <;> simp [expectObjAt] at h <;>
    (subst h; exact str_append_ne_empty_right _ _ (by decide))

/-- A requireKey failure carries a non-empty message. -/
theorem requireKey_err_ne (fields : List (String × Json)) (k : String) (m : String)
    (h : requireKey fields k = Except.error m) : m ≠ "" := by
  unfold requireKey at h
  cases hl : lookupKey fields k <;> rw [hl] at h
  · simp at h
    subst h
    exact str_append_ne_empty_right _ _ (by decide)
  · exact absurd h (by simp)

/-- A checkConstStr failure carries a non-empty message. -/
theorem checkConstStr_err_ne (v : Json) (k s : String) (m : String)
    (h : checkConstStr v k s = Except.error m) : m ≠ "" := by
  rcases v with _ | b | n | t | xs | ms <;> simp only [checkConstStr] at h
  case str =>
    split at h
    · exact absurd h (by simp)
    · simp at h
      subst h
      exact str_append_ne_empty_left _ _ (str_append_ne_empty_right _ _ (by decide))
  all_goals
    simp at h
    subst h
    exact str_append_ne_empty_right _ _ (by decide)

/-- A checkString failure carries a non-empty message. -/
theorem checkString_err_ne (v : Json) (k : String) (m : String)
    (h : checkString v k = Except.error m) : m ≠ "" := by
  cases v <;> simp [checkString] at h <;>
    (subst h; exact str_append_ne_empty_right _ _ (by decide))

/-- A checkObjVal failure carries a non-empty message. -/
theorem checkObjVal_err_ne (v : Json) (k : String) (m : String)
    (h : checkObjVal v k = Except.error m) : m ≠ "" := by
  cases v <;> simp [checkObjVal] at h <;>
    (subst h; exact str_append_ne_empty_right _ _ (by decide))

/-- A checkBoolVal failure carries a non-empty message. -/
theorem checkBoolVal_err_ne (v : Json) (k : String) (m : String)
    (h : checkBoolVal v k = Except.error m) : m ≠ "" := by
  cases v <;> simp [checkBoolVal] at h <;>
    (subst h; exact str_append_ne_empty_right _ _ (by decide))

/-- A checkEnumDecision failure carries a non-empty message. -/
theorem checkEnumDecision_err_ne (v : Json) (m : String)
    (h : checkEnumDecision v = Except.error m) : m ≠ "" := by
  cases v <;> simp [checkEnumDecision] at h <;> try (subst h; decide)
  split at h <;> simp_all
  subst h
  exact str_append_ne_empty_left _ _ (by decide)

/-- A checkPermissionMode failure carries a non-empty message. -/
theorem checkPermissionMode_err_ne (v : Json) (m : String)
    (h : checkPermissionMode v = Except.error m) : m ≠ "" := by
  cases v <;> simp [checkPermissionMode] at h <;> try (subst h; decide)
  split at h <;> simp_all
  subst h
  exact str_append_ne_empty_left _ _ (by decide)

/-- A checkOptional failure carries a non-empty message when the subcheck
does. -/
theorem checkOptional_err_ne (fields : List (String × Json)) (k : String)
    (chk : Json → String → Except String Unit)
    (hchk : ∀ v k2 m, chk v k2 = Except.error m → m ≠ "") (m : String)
    (h : checkOptional fields k chk = Except.error m) : m ≠ "" := by
  unfold checkOptional at h
  cases hl : lookupKey fields k <;> rw [hl] at h
  · exact absurd h (by simp)
  · exact hchk _ _ _ h

/-- A checkClosedKeys failure carries a non-empty message. -/
theorem checkClosedKeys_err_ne (inner : List (String × Json)) (m : String)
    (h : checkClosedKeys inner = Except.error m) : m ≠ "" := by
  unfold checkClosedKeys at h
  cases hf : inner.find? (fun p => !isEnvelopeKey p.1) <;> rw [hf] at h
  · exact absurd h (by simp)
  · simp at h
    subst h
    exact str_append_ne_empty_left _ _ (by decide)

/-- Pure never produces an error. -/
theorem pure_not_err {α : Type} (a : α) (m : String) :
    (pure a : Except String α) ≠ Except.error m := by
  simp [pure, Except.pure]

/-! ### The validators accept exactly the conforming documents -/

/-- The output validator succeeds exactly on documents conforming to
PRETOOLUSE_OUTPUT_SCHEMA, and then returns the document itself. -/
theorem validate_output_ok_iff (j v : Json) :
    validate_pretooluse_output j = Except.ok v ↔ OutputDocConforms j ∧ v = j := by
  unfold validate_pretooluse_output OutputDocConforms
  simp only [bind_ok_iff, pure_ok_iff, exists_unit_iff, expectObjAt_ok_iff,
    requireKey_ok_iff, checkConstStr_ok_iff, checkString_ok_iff, checkObjVal_ok_iff,
    checkEnumDecision_ok_iff, checkBoolVal_ok_iff, checkOptional_ok_iff,
    checkClosedKeys_ok_iff]
  aesop

/-- The input validator succeeds exactly on documents conforming to
PRETOOLUSE_INPUT_SCHEMA, and then returns the document itself. -/
theorem validate_input_ok_iff (j v : Json) :
    validate_pretooluse_input j = Except.ok v ↔ InputDocConforms j ∧ v = j := by
  unfold validate_pretooluse_input InputDocConforms
  simp only [bind_ok_iff, pure_ok_iff, exists_unit_iff, expectObjAt_ok_iff,
    requireKey_ok_iff, checkConstStr_ok_iff, checkString_ok_iff, checkObjVal_ok_iff,
    checkPermissionMode_ok_iff, checkOptional_ok_iff]
  aesop

/-- Any output validation failure carries a non-empty message. -/
theorem validate_output_err_ne (j : Json) (m : String)
    (h : validate_pretooluse_output j = Except.error m) : m ≠ "" := by
  unfold validate_pretooluse_output at h
  rw [bind_err_iff] at h
  rcases h with h | ⟨fields, _, h⟩
  · exact expectObjAt_err_ne _ _ _ h
  rw [bind_err_iff] at h
  rcases h with h | ⟨hso, _, h⟩
  · exact requireKey_err_ne _ _ _ h
  rw [bind_err_iff] at h
  rcases h with h | ⟨inner, _, h⟩
  · exact expectObjAt_err_ne _ _ _ h
  rw [bind_err_iff] at h
  rcases h with h | ⟨ev, _, h⟩
  · exact requireKey_err_ne _ _ _ h
  rw [bind_err_iff] at h
  rcases h with h | ⟨u1, _, h⟩
  · exact checkConstStr_err_ne _ _ _ _ h
  rw [bind_err_iff] at h
  rcases h with h | ⟨pd, _, h⟩
  · exact requireKey_err_ne _ _ _ h
  rw [bind_err_iff] at h
  rcases h with h | ⟨u2, _, h⟩
  · exact checkEnumDecision_err_ne _ _ h
  rw [bind_err_iff] at h
  rcases h with h | ⟨pr, _, h⟩
  · exact requireKey_err_ne _ _ _ h
  rw [bind_err_iff] at h
  rcases h with h | ⟨u3, _, h⟩
  · exact checkString_err_ne _ _ _ h
  rw [bind_err_iff] at h
  rcases h with h | ⟨u4, _, h⟩
  · exact checkOptional_err_ne _ _ _ checkObjVal_err_ne _ h
  rw [bind_err_iff] at h
  rcases h with h | ⟨u5, _, h⟩
  · exact checkClosedKeys_err_ne _ _ h
  rw [bind_err_iff] at h
  rcases h with h | ⟨u6, _, h⟩
  · exact checkOptional_err_ne _ _ _ checkBoolVal_err_ne _ h
  rw [bind_err_iff] at h
  rcases h with h | ⟨u7, _, h⟩
  · exact checkOptional_err_ne _ _ _ checkString_err_ne _ h
  rw [bind_err_iff] at h
  rcases h with h | ⟨u8, _, h⟩
  · exact checkOptional_err_ne _ _ _ checkBoolVal_err_ne _ h
  rw [bind_err_iff] at h
  rcases h with h | ⟨u9, _, h⟩
  · exact checkOptional_err_ne _ _ _ checkString_err_ne _ h
  exact absurd h (pure_not_err _ _)

/-- Any input validation failure carries a non-empty message. -/
theorem validate_input_err_ne (j : Json) (m : String)
    (h : validate_pretooluse_input j = Except.error m) : m ≠ "" := by
  unfold validate_pretooluse_input at h
  rw [bind_err_iff] at h
  rcases h with h | ⟨fields, _, h⟩
  · exact expectObjAt_err_ne _ _ _ h
  rw [bind_err_iff] at h
  rcases h with h | ⟨v1, _, h⟩
  · exact requireKey_err_ne _ _ _ h
  rw [bind_err_iff] at h
  rcases h with h | ⟨u1, _, h⟩
  · exact checkString_err_ne _ _ _ h
  rw [bind_err_iff] at h
  rcases h with h | ⟨v2, _, h⟩
  · exact requireKey_err_ne _ _ _ h
  rw [bind_err_iff] at h
  rcases h with h | ⟨u2, _, h⟩
  · exact checkString_err_ne _ _ _ h
  rw [bind_err_iff] at h
  rcases h with h | ⟨v3, _, h⟩
  · exact requireKey_err_ne _ _ _ h
  rw [bind_err_iff] at h
  rcases h with h | ⟨u3, _, h⟩
  · exact checkString_err_ne _ _ _ h
  rw [bind_err_iff] at h
  rcases h with h | ⟨pm, _, h⟩
  · exact requireKey_err_ne _ _ _ h
  rw [bind_err_iff] at h
  rcases h with h | ⟨u4, _, h⟩
  · exact checkPermissionMode_err_ne _ _ h
  rw [bind_err_iff] at h
  rcases h with h | ⟨he, _, h⟩
  · exact requireKey_err_ne _ _ _ h
  rw [bind_err_iff] at h
  rcases h with h | ⟨u5, _, h⟩
  · exact checkConstStr_err_ne _ _ _ _ h
  rw [bind_err_iff] at h
  rcases h with h | ⟨tn, _, h⟩
  · exact requireKey_err_ne _ _ _ h
  rw [bind_err_iff] at h
  rcases h with h | ⟨u6, _, h⟩
  · exact checkString_err_ne _ _ _ h
  rw [bind_err_iff] at h
  rcases h with h | ⟨ti, _, h⟩
  · exact requireKey_err_ne _ _ _ h
  rw [bind_err_iff] at h
  rcases h with h | ⟨u7, _, h⟩
  · exact checkObjVal_err_ne _ _ _ h
  exact absurd h (pure_not_err _ _)

/-! ### Lemmas about stripping and the code-fence search -/

/-- dropWhile removes a prefix of characters satisfying the predicate. -/
theorem dropWhile_decomp (p : Char → Bool) (l : List Char) :
    ∃ u, u ++ l.dropWhile p = l ∧ ∀ c ∈ u, p c = true := by
  induction l with
  | nil => exact ⟨[], rfl, by simp⟩
  | cons a l ih =>
    by_cases h : p a
    · rcases ih with ⟨u, hu, hall⟩
      refine ⟨a :: u, ?_, ?_⟩
      · simp [List.dropWhile_cons, h, hu]
      · intro c hc
        rcases List.mem_cons.mp hc with rfl | hc
        · exact h
        · exact hall c hc
    · refine ⟨[], ?_, by simp⟩
      simp [List.dropWhile_cons, h]

/-- The head of a dropWhile result does not satisfy the predicate. -/
theorem head_dropWhile_false (p : Char → Bool) (l : List Char) :
    ∀ c rest, l.dropWhile p = c :: rest → p c = false := by
  induction l with
  | nil => intro c rest h; simp at h
  | cons a l ih =>
    intro c rest h
    cases hpa : p a
    · simp [List.dropWhile_cons, hpa] at h
      rcases h with ⟨h1, _⟩
      rw [← h1]
      exact hpa
    · simp [List.dropWhile_cons, hpa] at h
      exact ih c rest h

/-- The stripped text sits between two runs of whitespace, and together with
the trailing run forms the leading-whitespace-free part. -/
theorem pyStrip_parts (cs : List Char) :
    ∃ u w, (∀ c ∈ u, pyIsSpace c = true) ∧ (∀ c ∈ w, pyIsSpace c = true) ∧
      u ++ (pyStrip cs ++ w) = cs ∧ pyStrip cs ++ w = cs.dropWhile pyIsSpace := by
  rcases dropWhile_decomp pyIsSpace cs with ⟨u, hu, hallu⟩
  rcases dropWhile_decomp pyIsSpace (cs.dropWhile pyIsSpace).reverse with ⟨t, ht, hallt⟩
  have h2 := congrArg List.reverse ht
  rw [List.reverse_append, List.reverse_reverse] at h2
  refine ⟨u, t.reverse, hallu, ?_, ?_, ?_⟩
  · intro c hc
    exact hallt c (List.mem_reverse.mp hc)
  · show u ++ (pyStrip cs ++ t.reverse) = cs
    unfold pyStrip
    rw [h2, hu]
  · show pyStrip cs ++ t.reverse = cs.dropWhile pyIsSpace
    unfold pyStrip
    rw [h2]

/-- The stripped text never begins with whitespace. -/
theorem pyStrip_head_false (cs : List Char) (c : Char) (rest : List Char)
    (h : pyStrip cs = c :: rest) : pyIsSpace c = false := by
  rcases pyStrip_parts cs with ⟨u, w, _, _, _, hdw⟩
  rw [h] at hdw
  exact head_dropWhile_false pyIsSpace cs c (rest ++ w) (by rw [← hdw]; rfl)

/-- Dropping whitespace from already-stripped text changes nothing. -/
theorem dropWhile_pyStrip (cs : List Char) :
    (pyStrip cs).dropWhile pyIsSpace = pyStrip cs := by
  cases hs : pyStrip cs with
  | nil => rfl
  | cons c rest =>
    have hc := pyStrip_head_false cs c rest hs
    simp [List.dropWhile_cons, hc]

/-- A fence occurrence in a string with an all-whitespace prefix occurs in
the part after that prefix. -/
theorem fence_infix_drop_ws (u x : List Char) (hu : ∀ c ∈ u, pyIsSpace c = true)
    (h : fenceChars <:+: u ++ x) : fenceChars <:+: x := by
  induction u with
  | nil => simpa using h
  | cons a u ih =>
    rw [List.cons_append, List.infix_cons_iff] at h
    rcases h with h | h
    · rcases h with ⟨t, ht⟩
      have hhead := congrArg List.head? ht
      simp [fenceChars] at hhead
      have ha := hu a (List.mem_cons_self a u)
      rw [← hhead] at ha
      exact absurd ha (by decide)
    · exact ih (fun c hc => hu c (List.mem_cons_of_mem a hc)) h

/-- A fence occurrence in a string with an all-whitespace suffix occurs in
the part before that suffix. -/
theorem fence_infix_drop_ws_right (x w : List Char) (hw : ∀ c ∈ w, pyIsSpace c = true)
    (h : fenceChars <:+: x ++ w) : fenceChars <:+: x := by
  have hrev : fenceChars.reverse = fenceChars := rfl
  have h2 : fenceChars.reverse <:+: (x ++ w).reverse := List.reverse_infix.mpr h
  rw [hrev, List.reverse_append] at h2
  have h3 := fence_infix_drop_ws w.reverse x.reverse
    (fun c hc => hw c (List.mem_reverse.mp hc)) h2
  rw [← hrev] at h3
  exact List.reverse_infix.mp h3

/-- A fence occurrence survives stripping. -/
theorem fence_infix_pyStrip (cs : List Char) (h : fenceChars <:+: cs) :
    fenceChars <:+: pyStrip cs := by
  rcases pyStrip_parts cs with ⟨u, w, hu, hw, hcs, _⟩
  rw [← hcs] at h
  exact fence_infix_drop_ws_right _ w hw (fence_infix_drop_ws u _ hu h)

/-- The stripped text is part of the original text. -/
theorem pyStrip_within (cs : List Char) : pyStrip cs <:+: cs := by
  rcases pyStrip_parts cs with ⟨u, w, _, _, hcs, _⟩
  exact ⟨u, w, by rw [← List.append_assoc] at hcs; exact hcs⟩

/-- startsWithFence detects exactly a three-backtick prefix. -/
theorem startsWithFence_iff (l : List Char) :
    startsWithFence l = true ↔ fenceChars <+: l := by
  match l with
  | [] => simp [startsWithFence, fenceChars]
  | [c1] =>
      simp [startsWithFence, fenceChars, List.cons_prefix_cons]
  | [c1, c2] =>
      simp [startsWithFence, fenceChars, List.cons_prefix_cons]
  | c1 :: c2 :: c3 :: rest =>
      constructor
      · intro h
        simp [startsWithFence] at h
        obtain ⟨⟨h1, h2⟩, h3⟩ := h
        subst h1
        subst h2
        subst h3
        exact ⟨rest, rfl⟩
      · intro h
        rcases h with ⟨t, ht⟩
        simp [fenceChars] at ht
        rcases ht with ⟨h1, h2, h3, _⟩
        subst h1
        subst h2
        subst h3
        simp [startsWithFence]

/-- hasCodeFence detects exactly a three-backtick occurrence. -/
theorem hasCodeFence_iff (cs : List Char) :
    hasCodeFence cs = true ↔ fenceChars <:+: cs := by
  induction cs with
  | nil =>
      simp [hasCodeFence, fenceChars]
  | cons a l ih =>
      rw [hasCodeFence, Bool.or_eq_true, startsWithFence_iff, ih, List.infix_cons_iff]

/-! ### Lemmas about the retry loop -/

/-- One unfolding of the retry loop. -/
theorem judgeLoopAux_step (parse : List Char → Except String Json)
    (resp : Nat → List Char) (a f : Nat) :
    judgeLoopAux parse resp a (f + 1) =
      match judgeAttempt parse (resp a) a with
      | AttemptOutcome.success out => ⟨Except.ok out, []⟩
      | AttemptOutcome.fail fl => ⟨Except.error fl, []⟩
      | AttemptOutcome.retry msg =>
          ⟨(judgeLoopAux parse resp (a + 1) f).result,
            msg :: (judgeLoopAux parse resp (a + 1) f).sent⟩ := rfl

/-- The loop after a retrying attempt. -/
theorem judgeLoop_retry (parse : List Char → Except String Json)
    (resp : Nat → List Char) (a f : Nat) (msg : String)
    (h : judgeAttempt parse (resp a) a = AttemptOutcome.retry msg) :
    judgeLoopAux parse resp a (f + 1) =
      ⟨(judgeLoopAux parse resp (a + 1) f).result,
        msg :: (judgeLoopAux parse resp (a + 1) f).sent⟩ := by
  rw [judgeLoopAux_step, h]

/-- The loop after a terminally failing attempt. -/
theorem judgeLoop_fail (parse : List Char → Except String Json)
    (resp : Nat → List Char) (a f : Nat) (fl : JudgeFailure)
    (h : judgeAttempt parse (resp a) a = AttemptOutcome.fail fl) :
    judgeLoopAux parse resp a (f + 1) = ⟨Except.error fl, []⟩ := by
  rw [judgeLoopAux_step, h]

/-- The loop after a successful attempt. -/
theorem judgeLoop_success (parse : List Char → Except String Json)
    (resp : Nat → List Char) (a f : Nat) (out : Json)
    (h : judgeAttempt parse (resp a) a = AttemptOutcome.success out) :
    judgeLoopAux parse resp a (f + 1) = ⟨Except.ok out, []⟩ := by
  rw [judgeLoopAux_step, h]

/-- The loop reads only the responses of the attempts its fuel covers. -/
theorem judgeLoopAux_congr (parse : List Char → Except String Json)
    (r r2 : Nat → List Char) (f : Nat) :
    ∀ a, (∀ i, a ≤ i → i < a + f → r i = r2 i) →
      judgeLoopAux parse r a f = judgeLoopAux parse r2 a f := by
  induction f with
  | zero => intro a _; rfl
  | succ f ih =>
    intro a h
    rw [judgeLoopAux_step, judgeLoopAux_step, h a (Nat.le_refl a) (by omega),
      ih (a + 1) (fun i h1 h2 => h i (by omega) (by omega))]

/-- The normalizer returns a dict carrying the envelope key unchanged. -/
theorem wrap_unchanged_of_hasKey (fields : List (String × Json))
    (h : (lookupKey fields "hookSpecificOutput").isSome = true) :
    wrapOutputIfNeeded (Json.obj fields) = some (Json.obj fields) := by
  simp [wrapOutputIfNeeded, pyContainsHookKey, h]

/-- Looking a key up past an unrelated entry. -/
theorem lookupKey_cons_ne (k : String) (v : Json) (fields : List (String × Json))
    (k2 : String) (h : k ≠ k2) :
    lookupKey ((k, v) :: fields) k2 = lookupKey fields k2 := by
  simp [lookupKey, h]

/-! ### Head characters of appended strings -/

/-- The head of an append whose left part begins with a character. -/
theorem head_of_append_lit (b m : String) (c : Char)
    (hb : b.data.head? = some c) : (b ++ m).data.head? = some c := by
  rw [str_data_append]
  cases hd : b.data with
  | nil => rw [hd] at hb; cases hb
  | cons x t =>
      rw [hd] at hb
      cases hb
      rfl

/-- Each except clause reason begins with its family head character. -/
theorem exceptionReason_head (e : CaughtException) :
    (exceptionReason e).data.head? = some (reasonHeadChar e) := by
  cases e with
  | configError m => exact head_of_append_lit _ m '設' rfl
  | valueError m => exact head_of_append_lit _ m '入' rfl
  | unexpected m => exact head_of_append_lit _ m '予' rfl
  | invalidJSONError m => rfl
  | noResponseError m => rfl
  | schemaValidationError m => rfl

/-- The output validator rejects a document whose envelope object lacks
permissionDecisionReason. -/
theorem validate_output_missing_reason (fields inner : List (String × Json))
    (hlk : lookupKey fields "hookSpecificOutput" = some (Json.obj inner))
    (hmr : lookupKey inner "permissionDecisionReason" = none) :
    ∃ m, validate_pretooluse_output (Json.obj fields) = Except.error m := by
  cases hv : validate_pretooluse_output (Json.obj fields) with
  | error m => exact ⟨m, rfl⟩
  | ok v =>
      rcases (validate_output_ok_iff _ _).mp hv with
        ⟨⟨fields0, heq, ⟨inner0, hlk0, _, _, ⟨s, hpr⟩, _, _⟩, _⟩, _⟩
      injection heq with heq2
      subst heq2
      rw [hlk] at hlk0
      injection hlk0 with hlk1
      injection hlk1 with hlk2
      subst hlk2
      rw [hmr] at hpr
      cases hpr

/-! ### Claim theorems -/

/-- C2: the Output Normalizer returns any object already carrying the
hookSpecificOutput key unchanged; for any other object it synthesizes the
envelope, copying permissionDecision and permissionDecisionReason from the
object when present and defaulting to deny and the fixed invalid-or-missing
reason when absent; in particular every object lacking a permissionDecision
field is normalized to a deny decision. -/
theorem claim_C2_output_normalizer :
    (∀ fields, (lookupKey fields "hookSpecificOutput").isSome = true →
      wrapOutputIfNeeded (Json.obj fields) = some (Json.obj fields)) ∧
    (∀ fields dv rv, lookupKey fields "hookSpecificOutput" = none →
      lookupKey fields "permissionDecision" = some dv →
      lookupKey fields "permissionDecisionReason" = some rv →
      wrapOutputIfNeeded (Json.obj fields) = some (Json.obj
        [("hookSpecificOutput", Json.obj
          [("hookEventName", Json.str HOOK_EVENT_NAME),
           ("permissionDecision", dv),
           ("permissionDecisionReason", rv)])])) ∧
    (∀ fields, lookupKey fields "hookSpecificOutput" = none →
      lookupKey fields "permissionDecision" = none →
      lookupKey fields "permissionDecisionReason" = none →
      wrapOutputIfNeeded (Json.obj fields) = some (Json.obj
        [("hookSpecificOutput", Json.obj
          [("hookEventName", Json.str HOOK_EVENT_NAME),
           ("permissionDecision", Json.str DEFAULT_PERMISSION_DECISION),
           ("permissionDecisionReason", Json.str DEFAULT_PERMISSION_REASON)])])) ∧
    (∀ fields, lookupKey fields "hookSpecificOutput" = none →
      lookupKey fields "permissionDecision" = none →
      ∃ r, wrapOutputIfNeeded (Json.obj fields) = some (Json.obj
        [("hookSpecificOutput", Json.obj
          [("hookEventName", Json.str "PreToolUse"),
           ("permissionDecision", Json.str "deny"),
           ("permissionDecisionReason", r)])])) := by
  refine ⟨?_, ?_, ?_, ?_⟩
  · intro fields h
    exact wrap_unchanged_of_hasKey fields h
  · intro fields dv rv h hd hr
    simp [wrapOutputIfNeeded, pyContainsHookKey, h, hd, hr]
  · intro fields h hd hr
    simp [wrapOutputIfNeeded, pyContainsHookKey, h, hd, hr]
  · intro fields h hd
    refine ⟨(lookupKey fields "permissionDecisionReason").getD
      (Json.str DEFAULT_PERMISSION_REASON), ?_⟩
    simp [wrapOutputIfNeeded, pyContainsHookKey, h, hd]
    exact ⟨rfl, rfl⟩

/-- C2 witness: the four parts of the normalizer contract evaluated at
concrete objects. -/
theorem claim_C2_witness :
    wrapOutputIfNeeded (Json.obj [("hookSpecificOutput", Json.bool true)]) =
      some (Json.obj [("hookSpecificOutput", Json.bool true)]) ∧
    wrapOutputIfNeeded (Json.obj [("permissionDecision", Json.str "allow"),
        ("permissionDecisionReason", Json.str "ok"), ("extra", Json.num 1)]) =
      some (Json.obj [("hookSpecificOutput", Json.obj
        [("hookEventName", Json.str HOOK_EVENT_NAME),
         ("permissionDecision", Json.str "allow"),
         ("permissionDecisionReason", Json.str "ok")])]) ∧
    wrapOutputIfNeeded (Json.obj []) =
      some (Json.obj [("hookSpecificOutput", Json.obj
        [("hookEventName", Json.str HOOK_EVENT_NAME),
         ("permissionDecision", Json.str DEFAULT_PERMISSION_DECISION),
         ("permissionDecisionReason", Json.str DEFAULT_PERMISSION_REASON)])]) ∧
    (∃ r, wrapOutputIfNeeded (Json.obj [("permissionDecisionReason", Json.str "x")]) =
      some (Json.obj [("hookSpecificOutput", Json.obj
        [("hookEventName", Json.str "PreToolUse"),
         ("permissionDecision", Json.str "deny"),
         ("permissionDecisionReason", r)])])) :=
  ⟨claim_C2_output_normalizer.1 _ rfl,
   claim_C2_output_normalizer.2.1 _ _ _ rfl rfl rfl,
   claim_C2_output_normalizer.2.2.1 _ rfl rfl rfl,
   claim_C2_output_normalizer.2.2.2 _ rfl rfl⟩

/-- C10: for every parsed object lacking the hookSpecificOutput key, the
normalizer result has exactly one top-level key, hookSpecificOutput, whose
value has exactly the three fields hookEventName, permissionDecision and
permissionDecisionReason; every other field of the input object is
discarded. -/
theorem claim_C10_normalizer_shape :
    ∀ fields, lookupKey fields "hookSpecificOutput" = none →
      ∃ d r, wrapOutputIfNeeded (Json.obj fields) = some (Json.obj
        [("hookSpecificOutput", Json.obj
          [("hookEventName", Json.str "PreToolUse"),
           ("permissionDecision", d),
           ("permissionDecisionReason", r)])]) := by
  intro fields h
  refine ⟨(lookupKey fields "permissionDecision").getD
      (Json.str DEFAULT_PERMISSION_DECISION),
    (lookupKey fields "permissionDecisionReason").getD
      (Json.str DEFAULT_PERMISSION_REASON), ?_⟩
  simp [wrapOutputIfNeeded, pyContainsHookKey, h]
  rfl

/-- C10 witness: an object carrying a bare updatedInput and the optional
top-level sibling fields is reduced to the three-field envelope alone. -/
theorem claim_C10_witness :
    ∃ d r, wrapOutputIfNeeded (Json.obj
      [("updatedInput", Json.obj []), ("continue", Json.bool true),
       ("stopReason", Json.str "s"), ("suppressOutput", Json.bool false),
       ("systemMessage", Json.str "m"), ("permissionDecision", Json.str "ask"),
       ("permissionDecisionReason", Json.str "r")]) = some (Json.obj
        [("hookSpecificOutput", Json.obj
          [("hookEventName", Json.str "PreToolUse"),
           ("permissionDecision", d),
           ("permissionDecisionReason", r)])]) :=
  claim_C10_normalizer_shape _ rfl

/-- C6: the Response Format Checker classifies by the fixed precedence
fence, then prefix, then suffix: any text containing three backticks fails
with the code-fence variant; otherwise non-empty trimmed text not starting
with an opening brace fails with the prefix variant carrying the first 50
characters; otherwise non-whitespace content after the last closing brace
fails with the suffix variant carrying that trailing text; and text that
strips to nothing passes. -/
theorem claim_C6_format_checker :
    (∀ text : List Char, fenceChars <:+: text →
      validateResponseFormat text = some FormatError.codeFenceInResponseError) ∧
    (∀ text : List Char, ¬(fenceChars <:+: text) → pyStrip text ≠ [] →
      (pyStrip text).head? ≠ some lbrace →
      validateResponseFormat text =
        some (FormatError.invalidJSONPrefixError ((pyStrip text).take 50))) ∧
    (∀ text after : List Char, ¬(fenceChars <:+: text) →
      (pyStrip text).head? = some lbrace →
      afterLastBrace (pyStrip text) = some after → pyStrip after ≠ [] →
      validateResponseFormat text =
        some (FormatError.invalidJSONSuffixError (pyStrip after))) ∧
    (∀ text : List Char, pyStrip text = [] → validateResponseFormat text = none) := by
  refine ⟨?_, ?_, ?_, ?_⟩
  · intro text h
    have h2 : hasCodeFence (pyStrip text) = true :=
      (hasCodeFence_iff _).mpr (fence_infix_pyStrip text h)
    simp [validateResponseFormat, h2]
  · intro text hf hne hhead
    have hcf : hasCodeFence (pyStrip text) = false := by
      cases hx : hasCodeFence (pyStrip text)
      · rfl
      · exact absurd (((hasCodeFence_iff _).mp hx).trans (pyStrip_within text)) hf
    simp [validateResponseFormat, hcf, dropWhile_pyStrip, hne, hhead]
  · intro text after hf hhead hafter htrail
    have hcf : hasCodeFence (pyStrip text) = false := by
      cases hx : hasCodeFence (pyStrip text)
      · rfl
      · exact absurd (((hasCodeFence_iff _).mp hx).trans (pyStrip_within text)) hf
    simp [validateResponseFormat, hcf, dropWhile_pyStrip, hhead, hafter, htrail]
  · intro text h
    simp [validateResponseFormat, h, hasCodeFence, afterLastBrace]

/-- C6 witness: the four classifications evaluated on concrete replies. -/
theorem claim_C6_witness :
    validateResponseFormat "a```b".data = some FormatError.codeFenceInResponseError ∧
    validateResponseFormat " Sure!".data =
      some (FormatError.invalidJSONPrefixError "Sure!".data) ∧
    validateResponseFormat "\x7bx\x7d tail".data =
      some (FormatError.invalidJSONSuffixError "tail".data) ∧
    validateResponseFormat " \n\t ".data = none :=
  ⟨claim_C6_format_checker.1 _ (by decide),
   claim_C6_format_checker.2.1 _ (by decide) (by decide) (by decide),
   claim_C6_format_checker.2.2.1 "\x7bx\x7d tail".data " tail".data
     (by decide) (by decide) (by decide) (by decide),
   claim_C6_format_checker.2.2.2 _ (by decide)⟩

/-- C4: the orchestrator makes at most MAX_RETRY_ATTEMPTS = 3 total tries
with one shared attempt counter — its outcome depends only on the responses
of the first three attempts — and when the response is empty on all three
attempts it raises the no-response error rather than returning a decision. -/
theorem claim_C4_retry_bound :
    MAX_RETRY_ATTEMPTS = 3 ∧
    (∀ parse r r2, (∀ i, i < MAX_RETRY_ATTEMPTS → r i = r2 i) →
      judgePretoolUse parse r = judgePretoolUse parse r2) ∧
    (∀ parse r, (∀ i, i < MAX_RETRY_ATTEMPTS → r i = []) →
      (judgePretoolUse parse r).result =
        Except.error (JudgeFailure.noResponseError noResponseErrorMessage)) := by
  refine ⟨rfl, ?_, ?_⟩
  · intro parse r r2 h
    exact judgeLoopAux_congr parse r r2 MAX_RETRY_ATTEMPTS 0
      (fun i _ h2 => h i (by simpa using h2))
  · intro parse r h
    have h0 := h 0 (by decide)
    have h1 := h 1 (by decide)
    have h2 := h 2 (by decide)
    have a0 : judgeAttempt parse (r 0) 0 = AttemptOutcome.retry retryPromptNoResponse := by
      rw [h0]; rfl
    have a1 : judgeAttempt parse (r 1) 1 = AttemptOutcome.retry retryPromptNoResponse := by
      rw [h1]; rfl
    have a2 : judgeAttempt parse (r 2) 2 =
        AttemptOutcome.fail (JudgeFailure.noResponseError noResponseErrorMessage) := by
      rw [h2]; rfl
    show (judgeLoopAux parse r 0 (2 + 1)).result = _
    rw [judgeLoop_retry parse r 0 2 _ a0]
    show (judgeLoopAux parse r 1 (1 + 1)).result = _
    rw [judgeLoop_retry parse r 1 1 _ a1]
    show (judgeLoopAux parse r 2 (0 + 1)).result = _
    rw [judgeLoop_fail parse r 2 0 _ a2]

/-- C4 witness: a run with empty responses throughout fails with the
no-response error, and agreement on the first three responses is applied at
a concrete pair of response sequences. -/
theorem claim_C4_witness :
    (judgePretoolUse (fun _ => Except.error "e") (fun _ => [])).result =
      Except.error (JudgeFailure.noResponseError noResponseErrorMessage) ∧
    judgePretoolUse (fun _ => Except.error "e") (fun _ => []) =
      judgePretoolUse (fun _ => Except.error "e") (fun i => if i < 3 then [] else ['x']) :=
  ⟨claim_C4_retry_bound.2.2 _ _ (fun _ _ => rfl),
   claim_C4_retry_bound.2.1 _ _ _ (fun i hi => by
     have hi3 : i < 3 := hi
     simp [hi3])⟩

/-- C9: each schema validator returns a conforming document unchanged and
fails on every non-conforming document with a non-empty error message. -/
theorem claim_C9_validator_identity :
    (∀ j, OutputDocConforms j → validate_pretooluse_output j = Except.ok j) ∧
    (∀ j, ¬OutputDocConforms j →
      ∃ m, validate_pretooluse_output j = Except.error m ∧ m ≠ "") ∧
    (∀ j, InputDocConforms j → validate_pretooluse_input j = Except.ok j) ∧
    (∀ j, ¬InputDocConforms j →
      ∃ m, validate_pretooluse_input j = Except.error m ∧ m ≠ "") := by
  refine ⟨?_, ?_, ?_, ?_⟩
  · intro j h
    exact (validate_output_ok_iff j j).mpr ⟨h, rfl⟩
  · intro j h
    cases hv : validate_pretooluse_output j with
    | ok v => exact absurd ((validate_output_ok_iff j v).mp hv).1 h
    | error m => exact ⟨m, rfl, validate_output_err_ne j m hv⟩
  · intro j h
    exact (validate_input_ok_iff j j).mpr ⟨h, rfl⟩
  · intro j h
    cases hv : validate_pretooluse_input j with
    | ok v => exact absurd ((validate_input_ok_iff j v).mp hv).1 h
    | error m => exact ⟨m, rfl, validate_input_err_ne j m hv⟩

/-- C9 witness: a conforming output document is returned unchanged and a
non-conforming input document yields a non-empty error. -/
theorem claim_C9_witness :
    validate_pretooluse_output (Json.obj [("hookSpecificOutput", Json.obj
      [("hookEventName", Json.str "PreToolUse"),
       ("permissionDecision", Json.str "allow"),
       ("permissionDecisionReason", Json.str "ok")])]) =
      Except.ok (Json.obj [("hookSpecificOutput", Json.obj
        [("hookEventName", Json.str "PreToolUse"),
         ("permissionDecision", Json.str "allow"),
         ("permissionDecisionReason", Json.str "ok")])]) ∧
    (∃ m, validate_pretooluse_input Json.null = Except.error m ∧ m ≠ "") :=
  ⟨claim_C9_validator_identity.1 _
    ⟨_, rfl, ⟨_, rfl, rfl, Or.inl rfl, ⟨"ok", rfl⟩,
      fun _ h => Option.noConfusion h, by decide⟩,
      fun _ h => Option.noConfusion h, fun _ h => Option.noConfusion h,
      fun _ h => Option.noConfusion h, fun _ h => Option.noConfusion h⟩,
   claim_C9_validator_identity.2.2.2 Json.null
     (by rintro ⟨fields, hx, -⟩; exact Json.noConfusion hx)⟩

/-- C8: output-schema validation rejects any document whose inner envelope
carries a property outside the closed four-property set, rejects any
document whose permissionDecision value is not allow, deny or ask, and both
schemas accept an added unrecognized top-level field on any accepted
document. -/
theorem claim_C8_schema_strictness :
    (∀ fields inner k v,
      lookupKey fields "hookSpecificOutput" = some (Json.obj inner) →
      (k, v) ∈ inner → k ≠ "hookEventName" → k ≠ "permissionDecision" →
      k ≠ "permissionDecisionReason" → k ≠ "updatedInput" →
      ∃ m, validate_pretooluse_output (Json.obj fields) = Except.error m) ∧
    (∀ fields inner v,
      lookupKey fields "hookSpecificOutput" = some (Json.obj inner) →
      lookupKey inner "permissionDecision" = some v →
      v ≠ Json.str "allow" → v ≠ Json.str "deny" → v ≠ Json.str "ask" →
      ∃ m, validate_pretooluse_output (Json.obj fields) = Except.error m) ∧
    (∀ fields k v,
      validate_pretooluse_output (Json.obj fields) = Except.ok (Json.obj fields) →
      k ≠ "hookSpecificOutput" → k ≠ "continue" → k ≠ "stopReason" →
      k ≠ "suppressOutput" → k ≠ "systemMessage" →
      validate_pretooluse_output (Json.obj ((k, v) :: fields)) =
        Except.ok (Json.obj ((k, v) :: fields))) ∧
    (∀ fields k v,
      validate_pretooluse_input (Json.obj fields) = Except.ok (Json.obj fields) →
      k ≠ "session_id" → k ≠ "transcript_path" → k ≠ "cwd" →
      k ≠ "permission_mode" → k ≠ "hook_event_name" → k ≠ "tool_name" →
      k ≠ "tool_input" →
      validate_pretooluse_input (Json.obj ((k, v) :: fields)) =
        Except.ok (Json.obj ((k, v) :: fields))) := by
  refine ⟨?_, ?_, ?_, ?_⟩
  · intro fields inner k v hlk hmem hk1 hk2 hk3 hk4
    cases hv : validate_pretooluse_output (Json.obj fields) with
    | error m => exact ⟨m, rfl⟩
    | ok w =>
        rcases (validate_output_ok_iff _ _).mp hv with
          ⟨⟨fields0, heq, ⟨inner0, hlk0, _, _, _, _, hclosed⟩, _⟩, _⟩
        injection heq with heq2
        subst heq2
        rw [hlk] at hlk0
        injection hlk0 with hlk1
        injection hlk1 with hlk2
        subst hlk2
        rcases hclosed (k, v) hmem with h | h | h | h <;> simp_all
  · intro fields inner v hlk hpd hv1 hv2 hv3
    cases hv : validate_pretooluse_output (Json.obj fields) with
    | error m => exact ⟨m, rfl⟩
    | ok w =>
        rcases (validate_output_ok_iff _ _).mp hv with
          ⟨⟨fields0, heq, ⟨inner0, hlk0, _, hdec, _, _, _⟩, _⟩, _⟩
        injection heq with heq2
        subst heq2
        rw [hlk] at hlk0
        injection hlk0 with hlk1
        injection hlk1 with hlk2
        subst hlk2
        rcases hdec with h | h | h <;> rw [hpd] at h <;>
          injection h with h2 <;> simp_all
  · intro fields k v hv hk1 hk2 hk3 hk4 hk5
    rcases (validate_output_ok_iff _ _).mp hv with
      ⟨⟨fields0, heq, ⟨inner0, hlk0, hev, hdec, hpr, hupd, hclosed⟩,
        hcont, hstop, hsup, hsys⟩, _⟩
    injection heq with heq2
    subst heq2
    refine (validate_output_ok_iff _ _).mpr ⟨⟨(k, v) :: fields, rfl,
      ⟨inner0, ?_, hev, hdec, hpr, hupd, hclosed⟩, ?_, ?_, ?_, ?_⟩, rfl⟩
    · rw [lookupKey_cons_ne k v fields _ hk1]
      exact hlk0
    · intro v2 h2
      rw [lookupKey_cons_ne k v fields _ hk2] at h2
      exact hcont v2 h2
    · intro v2 h2
      rw [lookupKey_cons_ne k v fields _ hk3] at h2
      exact hstop v2 h2
    · intro v2 h2
      rw [lookupKey_cons_ne k v fields _ hk4] at h2
      exact hsup v2 h2
    · intro v2 h2
      rw [lookupKey_cons_ne k v fields _ hk5] at h2
      exact hsys v2 h2
  · intro fields k v hv hk1 hk2 hk3 hk4 hk5 hk6 hk7
    rcases (validate_input_ok_iff _ _).mp hv with
      ⟨⟨fields0, heq, hsid, htp, hcwd, hpm, hhe, htn, hti⟩, _⟩
    injection heq with heq2
    subst heq2
    refine (validate_input_ok_iff _ _).mpr ⟨⟨(k, v) :: fields, rfl,
      ?_, ?_, ?_, ?_, ?_, ?_, ?_⟩, rfl⟩
    · rw [lookupKey_cons_ne k v fields _ hk1]
      exact hsid
    · rw [lookupKey_cons_ne k v fields _ hk2]
      exact htp
    · rw [lookupKey_cons_ne k v fields _ hk3]
      exact hcwd
    · rw [lookupKey_cons_ne k v fields _ hk4]
      exact hpm
    · rw [lookupKey_cons_ne k v fields _ hk5]
      exact hhe
    · rw [lookupKey_cons_ne k v fields _ hk6]
      exact htn
    · rw [lookupKey_cons_ne k v fields _ hk7]
      exact hti

/-- C8 witness: an envelope with an extra inner property is rejected, a bad
permissionDecision is rejected, and adding an unknown top-level field to an
accepted output document and an accepted input document keeps both
accepted. -/
theorem claim_C8_witness :
    (∃ m, validate_pretooluse_output (Json.obj
      [("hookSpecificOutput", Json.obj [("note", Json.null)])]) = Except.error m) ∧
    (∃ m, validate_pretooluse_output (Json.obj
      [("hookSpecificOutput", Json.obj
        [("permissionDecision", Json.str "maybe")])]) = Except.error m) ∧
    validate_pretooluse_output (Json.obj
      [("verdict", Json.str "extra"),
       ("hookSpecificOutput", Json.obj
        [("hookEventName", Json.str "PreToolUse"),
         ("permissionDecision", Json.str "deny"),
         ("permissionDecisionReason", Json.str "r")])]) =
      Except.ok (Json.obj
      [("verdict", Json.str "extra"),
       ("hookSpecificOutput", Json.obj
        [("hookEventName", Json.str "PreToolUse"),
         ("permissionDecision", Json.str "deny"),
         ("permissionDecisionReason", Json.str "r")])]) ∧
    validate_pretooluse_input (Json.obj
      [("trace_id", Json.num 7),
       ("session_id", Json.str "s"), ("transcript_path", Json.str "t"),
       ("cwd", Json.str "c"), ("permission_mode", Json.str "default"),
       ("hook_event_name", Json.str "PreToolUse"), ("tool_name", Json.str "Write"),
       ("tool_input", Json.obj [])]) =
      Except.ok (Json.obj
      [("trace_id", Json.num 7),
       ("session_id", Json.str "s"), ("transcript_path", Json.str "t"),
       ("cwd", Json.str "c"), ("permission_mode", Json.str "default"),
       ("hook_event_name", Json.str "PreToolUse"), ("tool_name", Json.str "Write"),
       ("tool_input", Json.obj [])]) :=
  ⟨claim_C8_schema_strictness.1 _ _ "note" Json.null rfl
      (List.mem_cons_self _ _) (by decide) (by decide) (by decide) (by decide),
   claim_C8_schema_strictness.2.1 _ _ (Json.str "maybe") rfl rfl
      (by intro h; injection h with h2; exact absurd h2 (by decide))
      (by intro h; injection h with h2; exact absurd h2 (by decide))
      (by intro h; injection h with h2; exact absurd h2 (by decide)),
   claim_C8_schema_strictness.2.2.1 _ "verdict" (Json.str "extra") rfl
      (by decide) (by decide) (by decide) (by decide) (by decide),
   claim_C8_schema_strictness.2.2.2 _ "trace_id" (Json.num 7) rfl
      (by decide) (by decide) (by decide) (by decide) (by decide) (by decide) (by decide)⟩

/-- C3: for every exception classified by the except cascade of main — the
three typed judgment errors, the configuration error, the input-validation
ValueError and the residual catch-all — the CLI prints the deny decision
document built by create_error_output, that document is schema-valid with
permissionDecision deny, and the reason texts of distinct except clauses
never coincide. -/
theorem claim_C3_cli_boundary :
    (∀ e : CaughtException,
      mainErrorOutput e = create_error_output (exceptionReason e) ∧
      mainErrorOutput e = Json.obj [("hookSpecificOutput", Json.obj
        [("hookEventName", Json.str "PreToolUse"),
         ("permissionDecision", Json.str "deny"),
         ("permissionDecisionReason", Json.str (exceptionReason e))])] ∧
      validate_pretooluse_output (mainErrorOutput e) =
        Except.ok (mainErrorOutput e)) ∧
    (∀ e e2 : CaughtException,
      exceptionReason e = exceptionReason e2 → exceptionKind e = exceptionKind e2) := by
  constructor
  · intro e
    refine ⟨rfl, rfl, ?_⟩
    refine (validate_output_ok_iff _ _).mpr ⟨⟨_, rfl,
      ⟨_, rfl, rfl, Or.inr (Or.inl rfl), ⟨exceptionReason e, rfl⟩,
        fun _ h => Option.noConfusion h, ?_⟩,
      fun _ h => Option.noConfusion h, fun _ h => Option.noConfusion h,
      fun _ h => Option.noConfusion h, fun _ h => Option.noConfusion h⟩, rfl⟩
    intro p hp
    rcases List.mem_cons.mp hp with rfl | hp
    · exact Or.inl rfl
    rcases List.mem_cons.mp hp with rfl | hp
    · exact Or.inr (Or.inl rfl)
    rcases List.mem_cons.mp hp with rfl | hp
    · exact Or.inr (Or.inr (Or.inl rfl))
    · cases hp
  · intro e e2 h
    cases e <;> cases e2 <;>
      first
        | rfl
        | (exfalso
           simp only [exceptionReason] at h
           exact absurd h (by decide))
        | (exfalso
           have h2 := congrArg (fun s : String => s.data.head?) h
           simp only [exceptionReason_head, reasonHeadChar] at h2
           exact absurd h2 (by decide))

/-- C3 witness: the boundary contract applied to a concrete no-response
exception and the reason-injectivity applied at a concrete pair. -/
theorem claim_C3_witness :
    validate_pretooluse_output (mainErrorOutput (CaughtException.noResponseError "boom")) =
      Except.ok (mainErrorOutput (CaughtException.noResponseError "boom")) ∧
    exceptionKind (CaughtException.valueError "v") =
      exceptionKind (CaughtException.valueError "v") :=
  ⟨(claim_C3_cli_boundary.1 (CaughtException.noResponseError "boom")).2.2,
   claim_C3_cli_boundary.2 (CaughtException.valueError "v")
     (CaughtException.valueError "v") rfl⟩

/-- C7 counterexample: the ConfigError actually raised by the configuration
loader and caught by main — the ConfigError class of src/config.py — does
not derive from the JudgeError base, refuting the claim that every consumed
failure variant belongs to the single hierarchy rooted there. -/
theorem claim_C7_counterexample :
    derivesFrom mainConfigErrorClass ExcClass.judgeError = false := by
  decide

/-- C7 amended: the three typed judgment errors derive from the single base
JudgeError, as does the separate (unused) ConfigError declared in
src/exceptions.py; but the ConfigError that the configuration loader raises
and main consumes is the distinct class of src/config.py, which derives
directly from Exception, outside the JudgeError hierarchy. -/
theorem claim_C7_amended :
    derivesFrom ExcClass.invalidJSONErrorClass ExcClass.judgeError = true ∧
    derivesFrom ExcClass.noResponseErrorClass ExcClass.judgeError = true ∧
    derivesFrom ExcClass.schemaValidationErrorClass ExcClass.judgeError = true ∧
    derivesFrom ExcClass.exceptionsConfigError ExcClass.judgeError = true ∧
    mainConfigErrorClass = ExcClass.configConfigError ∧
    superclass ExcClass.configConfigError = some ExcClass.pyException ∧
    derivesFrom mainConfigErrorClass ExcClass.judgeError = false := by
  decide

/-- C5 counterexample: an LLM that answers the bare valid JSON object
lacking permissionDecisionReason on every attempt does not drive the
orchestrator into SchemaValidationError: the normalizer fills in the
default reason and the first attempt already returns a decision. -/
theorem claim_C5_counterexample :
    jsonLoads scenarioBareNoReason =
      Except.ok (Json.obj [("permissionDecision", Json.str "allow")]) ∧
    lookupKey [("permissionDecision", Json.str "allow")] "permissionDecisionReason" =
      none ∧
    (judgePretoolUse jsonLoads (fun _ => scenarioBareNoReason)).result =
      Except.ok (Json.obj [("hookSpecificOutput", Json.obj
        [("hookEventName", Json.str "PreToolUse"),
         ("permissionDecision", Json.str "allow"),
         ("permissionDecisionReason", Json.str DEFAULT_PERMISSION_REASON)])]) ∧
    (judgePretoolUse jsonLoads (fun _ => scenarioBareNoReason)).sent = [] :=
  ⟨rfl, rfl, rfl, rfl⟩

/-- C5 amended: when every attempt yields a non-empty response parsing to
an object that already carries hookSpecificOutput as an object lacking
permissionDecisionReason, the orchestrator exhausts its attempts and raises
the schema-validation variant; a bare object lacking the reason is instead
completed by the normalizer and can succeed. -/
theorem claim_C5_amended (parse : List Char → Except String Json)
    (responses : Nat → List Char)
    (h : ∀ i, i < MAX_RETRY_ATTEMPTS → responses i ≠ [] ∧
      ∃ fields inner, parse (responses i) = Except.ok (Json.obj fields) ∧
        lookupKey fields "hookSpecificOutput" = some (Json.obj inner) ∧
        lookupKey inner "permissionDecisionReason" = none) :
    ∃ m, (judgePretoolUse parse responses).result =
      Except.error (JudgeFailure.schemaValidationError m) := by
  obtain ⟨hne0, f0, i0, hp0, hl0, hm0⟩ := h 0 (by decide)
  obtain ⟨hne1, f1, i1, hp1, hl1, hm1⟩ := h 1 (by decide)
  obtain ⟨hne2, f2, i2, hp2, hl2, hm2⟩ := h 2 (by decide)
  obtain ⟨m0, hv0⟩ := validate_output_missing_reason f0 i0 hl0 hm0
  obtain ⟨m1, hv1⟩ := validate_output_missing_reason f1 i1 hl1 hm1
  obtain ⟨m2, hv2⟩ := validate_output_missing_reason f2 i2 hl2 hm2
  have a0 : judgeAttempt parse (responses 0) 0 =
      AttemptOutcome.retry (retryPromptSchema m0) := by
    unfold judgeAttempt
    rw [if_neg hne0, hp0]
    simp only [wrap_unchanged_of_hasKey f0 (by rw [hl0]; rfl), hv0]
    try rfl
  have a1 : judgeAttempt parse (responses 1) 1 =
      AttemptOutcome.retry (retryPromptSchema m1) := by
    unfold judgeAttempt
    rw [if_neg hne1, hp1]
    simp only [wrap_unchanged_of_hasKey f1 (by rw [hl1]; rfl), hv1]
    try rfl
  have a2 : judgeAttempt parse (responses 2) 2 =
      AttemptOutcome.fail (JudgeFailure.schemaValidationError
        (schemaValidationErrorMessage m2)) := by
    unfold judgeAttempt
    rw [if_neg hne2, hp2]
    simp only [wrap_unchanged_of_hasKey f2 (by rw [hl2]; rfl), hv2]
    try rfl
  refine ⟨schemaValidationErrorMessage m2, ?_⟩
  show (judgeLoopAux parse responses 0 (2 + 1)).result = _
  rw [judgeLoop_retry parse responses 0 2 _ a0]
  show (judgeLoopAux parse responses 1 (1 + 1)).result = _
  rw [judgeLoop_retry parse responses 1 1 _ a1]
  show (judgeLoopAux parse responses 2 (0 + 1)).result = _
  rw [judgeLoop_fail parse responses 2 0 _ a2]

/-- C5 witness: the amended statement applied to a run answering, on every
attempt, an envelope-bearing object lacking permissionDecisionReason. -/
theorem claim_C5_witness :
    ∃ m, (judgePretoolUse jsonLoads (fun _ => scenarioEnvelopeNoReason)).result =
      Except.error (JudgeFailure.schemaValidationError m) :=
  claim_C5_amended jsonLoads _ (fun i _ =>
    ⟨by decide,
     [("hookSpecificOutput", Json.obj [("hookEventName", Json.str "PreToolUse"),
        ("permissionDecision", Json.str "allow")])],
     [("hookEventName", Json.str "PreToolUse"),
        ("permissionDecision", Json.str "allow")],
     by rfl, rfl, rfl⟩)

/-- C1: the retry loop of judge_pretooluse_async never invokes the
Response Format Checker: in end-to-end scenario C — a code-fence-wrapped
reply on attempt 1, valid raw JSON on attempt 2 — the checker itself would
classify the first reply as a code-fence error, and the run does succeed on
the second attempt, but the corrective message the loop sends after
attempt 1 is the generic JSON-parse message, not the checker's code-fence
message. -/
theorem claim_C1_code_eval :
    validateResponseFormat scenarioFencedReply =
      some FormatError.codeFenceInResponseError ∧
    (judgePretoolUse jsonLoads scenarioCResponses).result = Except.ok (Json.obj
      [("hookSpecificOutput", Json.obj
        [("hookEventName", Json.str "PreToolUse"),
         ("permissionDecision", Json.str "allow"),
         ("permissionDecisionReason", Json.str "safe")])]) ∧
    (judgePretoolUse jsonLoads scenarioCResponses).sent =
      [retryPromptInvalidJson "Expecting value"] ∧
    retryPromptInvalidJson "Expecting value" ≠ codeFenceMessage := by
  refine ⟨rfl, rfl, rfl, ?_⟩
  decide
